import Mathlib

set_option linter.unusedVariables false
set_option maxRecDepth 8000

/- Shallow embedding of the mcp-nano-banana repository: src/auth.ts, src/client.ts and
src/tools/images.ts. Machine integers do not occur; byte values are plain Nat.
Effectful code (readFileSync, fetch, writeFileSync, Date.now) is modelled by explicit
state passing: file reads and the single HTTP call of each handler come from an
environment record, and file writes are returned as an explicit list. -/

-- JS truthiness of an optional string field (`if (x)`): present and non-empty.
def strTruthy : Option String → Bool
  | none => false
  | some s => s != ""

-- JS `a || b` where `a` is an optional number: undefined and 0 are falsy.
def jsNumOr (a : Option Nat) (b : Nat) : Nat :=
  match a with
  | none => b
  | some n => if n = 0 then b else n

-- JS `a || b` where `a` is an optional string: undefined and "" are falsy.
def jsStrOr (a : Option String) (b : String) : String :=
  match a with
  | none => b
  | some s => if s = "" then b else s

-- `needle` starts `hay` (character lists).
def leadsChars : List Char → List Char → Bool
  | [], _ => true
  | _ :: _, [] => false
  | a :: as, b :: bs => a == b && leadsChars as bs

-- `needle` occurs contiguously inside `hay` (character lists).
def occursChars (needle : List Char) : List Char → Bool
  | [] => leadsChars needle []
  | b :: bs => leadsChars needle (b :: bs) || occursChars needle bs

-- `needle` occurs as a substring of `hay`.
def occursIn (needle hay : String) : Bool := occursChars needle.data hay.data

-- Standard base64 alphabet value of a character; none for characters outside the
-- alphabet (they are skipped by the decoder, as Buffer.from(_, "base64") does).
def b64CharVal (c : Char) : Option Nat :=
  if 'A' ≤ c ∧ c ≤ 'Z' then some (c.toNat - 65)
  else if 'a' ≤ c ∧ c ≤ 'z' then some (c.toNat - 97 + 26)
  else if '0' ≤ c ∧ c ≤ '9' then some (c.toNat - 48 + 52)
  else if c = '+' then some 62
  else if c = '/' then some 63
  else none

-- Base64 sextet groups to bytes; a lone trailing sextet is dropped.
def sextetsToBytes : List Nat → List Nat
  | a :: b :: c :: d :: rest =>
      (a * 4 + b / 16) :: ((b % 16) * 16 + c / 4) :: ((c % 4) * 64 + d) :: sextetsToBytes rest
  | [a, b] => [a * 4 + b / 16]
  | [a, b, c] => [a * 4 + b / 16, (b % 16) * 16 + c / 4]
  | _ => []

-- Buffer.from(s, "base64"): decode to raw bytes.
def decodeBase64 (s : String) : List Nat :=
  sextetsToBytes (s.data.filterMap b64CharVal)

def b64Chars : List Char :=
  "ABCDEFGHIJKLMNOPQRSTUVWXYZabcdefghijklmnopqrstuvwxyz0123456789+/".data

def b64At (i : Nat) : Char := b64Chars.getD i 'A'

def bytesToB64 : List Nat → List Char
  | b1 :: b2 :: b3 :: rest =>
      b64At (b1 / 4) :: b64At ((b1 % 4) * 16 + b2 / 16) ::
      b64At ((b2 % 16) * 4 + b3 / 64) :: b64At (b3 % 64) :: bytesToB64 rest
  | [b1, b2] => [b64At (b1 / 4), b64At ((b1 % 4) * 16 + b2 / 16), b64At ((b2 % 16) * 4), '=']
  | [b1] => [b64At (b1 / 4), b64At ((b1 % 4) * 16), '=', '=']
  | [] => []

-- buffer.toString("base64"): encode raw bytes.
def encodeBase64 (bytes : List Nat) : String := String.mk (bytesToB64 bytes)

/- node:path. `basenameChars` keeps the maximal suffix free of the separator.
`extnameChars` follows the documented node semantics: the extension runs from the
last dot of the basename to its end; no dot, or only a dot at position 0 of the
basename (a dotfile), or a basename of ".." gives the empty extension. -/

def basenameChars (l : List Char) : List Char :=
  (l.reverse.takeWhile (fun c => c != '/')).reverse

def afterLastDot (rest : List Char) : List Char :=
  (rest.reverse.takeWhile (fun c => c != '.')).reverse

def extnameChars (b : List Char) : List Char :=
  match b with
  | [] => []
  | c0 :: rest =>
    if c0 = '.' ∧ rest = ['.'] then []
    else if rest.contains '.' then '.' :: afterLastDot rest else []

def extname (p : String) : String := String.mk (extnameChars (basenameChars p.data))

-- String.prototype.toLowerCase, character-wise.
def strToLower (s : String) : String := String.mk (s.data.map Char.toLower)

-- node:path join, for the shapes used here (no "." or ".." normalization).
def joinPath (a b : String) : String :=
  if a = "" then b
  else if a.data.getLast? == some '/' then a ++ b
  else a ++ "/" ++ b

-- --- Model mapping (src/client.ts MODELS / resolveModel) ---

inductive ModelChoice where
  | flash
  | pro
deriving DecidableEq, Repr, Inhabited

def resolveModel : ModelChoice → String
  | .flash => "gemini-2.5-flash-image"
  | .pro => "gemini-3-pro-image-preview"

/- Errors. `JsError.gemini status message` embeds the GeminiApiError class of
src/client.ts; `JsError.generic message` embeds any other thrown Error. -/

inductive JsError where
  | gemini (status : Nat) (message : String)
  | generic (message : String)
deriving DecidableEq, Repr

-- (error as Error).message
def JsError.message : JsError → String
  | .gemini _ m => m
  | .generic m => m

-- --- Gemini wire types (src/client.ts interfaces) ---

structure InlineData where
  mimeType : String
  data : String
deriving DecidableEq, Repr, Inhabited

structure GeminiPart where
  text : Option String := none
  inlineData : Option InlineData := none
deriving DecidableEq, Repr, Inhabited

structure GeminiContent where
  parts : List GeminiPart
  role : String
deriving DecidableEq, Repr, Inhabited

structure GeminiCandidate where
  content : GeminiContent
deriving DecidableEq, Repr, Inhabited

/- The error descriptor of a GeminiResponse. The TS interface declares `code` as a
required number, but a wire response may omit it, so it is optional here; the source
reads it as `response.error.code || 500`. -/
structure ErrorDescriptor where
  message : String
  code : Option Nat := none
deriving DecidableEq, Repr

structure GeminiResponse where
  candidates : Option (List GeminiCandidate) := none
  error : Option ErrorDescriptor := none
deriving DecidableEq, Repr

structure GenerateOptions where
  model : ModelChoice
  parts : List GeminiPart
  responseModalities : List String
  aspectRatio : Option String := none
  imageSize : Option String := none
deriving DecidableEq, Repr

-- Truthiness of `part.inlineData?.data`.
def partHasImage (p : GeminiPart) : Bool :=
  match p.inlineData with
  | some d => d.data != ""
  | none => false

-- `part.inlineData.data` (read under the truthiness guard).
def partData (p : GeminiPart) : String :=
  match p.inlineData with
  | some d => d.data
  | none => ""

-- `part.text!` (read under the truthiness guard).
def partTextVal (p : GeminiPart) : String := p.text.getD ""

-- --- File writer (src/client.ts saveBase64Image), with the filesystem explicit ---

-- A performed writeFileSync: path and decoded bytes.
abbrev FileWrite : Type := String × List Nat

def savePath (outputDir : String) (now : Nat) : String :=
  joinPath outputDir ("nano-banana-" ++ toString now ++ ".png")

-- saveBase64Image(base64, outputDir) at Date.now() = now: returns the path and the write.
def saveBase64Image (base64 : String) (outputDir : String) (now : Nat) : String × FileWrite :=
  (savePath outputDir now, (savePath outputDir now, decodeBase64 base64))

-- Reading the modelled filesystem: the latest write to a path wins.
def fsRead (writes : List FileWrite) (path : String) : Option (List Nat) :=
  (writes.reverse.find? (fun w => w.1 == path)).map (fun w => w.2)

-- --- Response extraction (src/client.ts extractResult) ---

structure ExtractedResult where
  text : Option String := none
  imagePath : Option String := none
deriving DecidableEq, Repr

/- The for-loop of extractResult. `clock k` is Date.now() at the k-th write of this
call. Accumulators: collected text parts, latest recorded image path, writes so far. -/
def extractLoop (clock : Nat → Nat) (outputDir : String) :
    List GeminiPart → List String → Option String → List FileWrite → Nat →
      List String × Option String × List FileWrite
  | [], texts, imgPath, writes, _ => (texts, imgPath, writes)
  | part :: rest, texts, imgPath, writes, k =>
    let texts2 := if strTruthy part.text then texts ++ [partTextVal part] else texts
    if partHasImage part then
      let saved := saveBase64Image (partData part) outputDir (clock k)
      extractLoop clock outputDir rest texts2 (some saved.1) (writes ++ [saved.2]) (k + 1)
    else
      extractLoop clock outputDir rest texts2 imgPath writes k

-- The `!response.candidates || response.candidates.length === 0` branch.
def extractEmpty (err : Option ErrorDescriptor) : Except JsError (ExtractedResult × List FileWrite) :=
  match err with
  | some e => .error (.gemini (jsNumOr e.code 500) e.message)
  | none => .ok ({ text := none, imagePath := none }, [])

def extractCore (clock : Nat → Nat) (outputDir : String) (err : Option ErrorDescriptor) :
    Option (List GeminiCandidate) → Except JsError (ExtractedResult × List FileWrite)
  | none => extractEmpty err
  | some [] => extractEmpty err
  | some (c :: _) =>
    let r := extractLoop clock outputDir c.content.parts [] none [] 0
    .ok ({ text := if r.1.length > 0 then some (String.intercalate "\n" r.1) else none,
           imagePath := r.2.1 }, r.2.2)

def extractResult (clock : Nat → Nat) (response : GeminiResponse) (outputDir : String) :
    Except JsError (ExtractedResult × List FileWrite) :=
  extractCore clock outputDir response.error response.candidates

-- --- Image read helper (src/client.ts readImageAsBase64), file bytes passed in ---

structure ImgData where
  data : String
  mimeType : String
deriving DecidableEq, Repr

def mimeMap : List (String × String) :=
  [(".png", "image/png"), (".jpg", "image/jpeg"), (".jpeg", "image/jpeg"),
   (".gif", "image/gif"), (".webp", "image/webp"), (".bmp", "image/bmp")]

def readImageAsBase64 (filePath : String) (bytes : List Nat) : ImgData :=
  { data := encodeBase64 bytes,
    mimeType := jsStrOr (mimeMap.lookup (strToLower (extname filePath))) "image/png" }

-- --- Request body (src/client.ts generateContent, lines 64-81) ---

structure ImageConfig where
  aspectRatio : Option String := none
  imageSize : Option String := none
deriving DecidableEq, Repr

structure GenerationConfig where
  responseModalities : List String
  imageConfig : Option ImageConfig := none
deriving DecidableEq, Repr

structure RequestContent where
  role : String
  parts : List GeminiPart
deriving DecidableEq, Repr

structure RequestBody where
  contents : List RequestContent
  generationConfig : GenerationConfig
deriving DecidableEq, Repr

def buildGenerationConfig (options : GenerateOptions) : GenerationConfig :=
  if options.responseModalities.contains "IMAGE" &&
      (strTruthy options.aspectRatio || strTruthy options.imageSize) then
    { responseModalities := options.responseModalities,
      imageConfig := some
        { aspectRatio := if strTruthy options.aspectRatio then options.aspectRatio else none,
          imageSize := if strTruthy options.imageSize then options.imageSize else none } }
  else
    { responseModalities := options.responseModalities }

def buildRequestBody (options : GenerateOptions) : RequestBody :=
  { contents := [{ role := "user", parts := options.parts }],
    generationConfig := buildGenerationConfig options }

-- --- HTTP layer (src/client.ts generateContent, lines 83-113) ---

-- The error-shaped reading of a non-2xx JSON body: { message?, error?: { message? } }.
structure ErrInner where
  message : Option String := none
deriving DecidableEq, Repr

structure ErrBody where
  message : Option String := none
  error : Option ErrInner := none
deriving DecidableEq, Repr

/- One fetch outcome. `errBody` is the JSON body read on the non-2xx path (none when
parsing fails, which the source turns into `{}` via `.catch(() => ({}))`); `body` is
the same JSON read as a GeminiResponse on the 2xx path (none when parsing fails,
which on that path throws). -/
structure FetchResponse where
  status : Nat
  statusText : String
  errBody : Option ErrBody := none
  body : Option GeminiResponse := none
deriving DecidableEq, Repr

-- fetch Response.ok: status in the 2xx range.
def respOk (status : Nat) : Bool := 200 ≤ status && status < 300

def rateLimitMessage : String :=
  "Rate limit exceeded. Gemini image generation is limited to ~2-5 requests per minute. Try again in a moment."

-- `error.message || error.error?.message || response.statusText`
def deriveErrorMessage (body : Option ErrBody) (statusText : String) : String :=
  let b := body.getD {}
  jsStrOr b.message (jsStrOr (b.error.bind ErrInner.message) statusText)

def non2xxError (status : Nat) (statusText : String) (body : Option ErrBody) : JsError :=
  let msg := deriveErrorMessage body statusText
  if status = 429 then
    .gemini 429 rateLimitMessage
  else
    .gemini status ("Gemini API error (" ++ toString status ++ "): " ++ msg)

/- generateContent over an already-delivered fetch outcome (`fetched` is an error when
the network request itself failed). The request body is built exactly as in the
source; the opaque network makes no use of it. -/
def generateContentWith (fetched : Except JsError FetchResponse) (options : GenerateOptions) :
    Except JsError GeminiResponse :=
  let _requestBody := buildRequestBody options
  match fetched with
  | .error e => .error e
  | .ok r =>
    if respOk r.status then
      match r.body with
      | some g => .ok g
      | none => .error (.generic "Unexpected end of JSON input")
    else
      .error (non2xxError r.status r.statusText r.errBody)

-- --- Tool result envelopes (src/client.ts toolResult / toolResultWithImage / toolError) ---

structure GenerateMeta where
  saved_to : String
  model : ModelChoice
  aspect_ratio : String
  image_size : String
  description : Option String
deriving DecidableEq, Repr

structure EditMeta where
  saved_to : String
  source : String
  instruction : String
  model : ModelChoice
  description : Option String
deriving DecidableEq, Repr

structure ComposeMeta where
  saved_to : String
  sources : List String
  instruction : String
  model : ModelChoice
  description : Option String
deriving DecidableEq, Repr

structure DescribeMeta where
  image_path : String
  description : String
  model : ModelChoice
deriving DecidableEq, Repr

inductive MetaData where
  | gen (m : GenerateMeta)
  | edit (m : EditMeta)
  | compose (m : ComposeMeta)
  | describe (m : DescribeMeta)
deriving DecidableEq, Repr

/- A content item of the MCP result. `json data` models a type:"text" item holding
JSON.stringify(data, null, 2): serialization is kept abstract by carrying the
structured value itself. `text` is a plain type:"text" item; `image` a type:"image"
item with base64 data and MIME type. -/
inductive ContentItem where
  | text (s : String)
  | json (data : MetaData)
  | image (data : String) (mimeType : String)
deriving DecidableEq, Repr

structure Envelope where
  isError : Bool := false
  content : List ContentItem
deriving DecidableEq, Repr

def toolResult (data : MetaData) : Envelope :=
  { content := [.json data] }

def toolResultWithImage (data : MetaData) (base64 : String) : Envelope :=
  { content := [.image base64 "image/png", .json data] }

def toolError (message : String) : Envelope :=
  { isError := true, content := [.text message] }

-- --- Handler environment: every effect a tool call can perform ---

/- `readFile path` is the readFileSync outcome for that path; `fetchResult` the
outcome of the single fetch the handler performs; `clock k` is Date.now() at the
k-th image write of the call. -/
structure Env where
  readFile : String → Except JsError (List Nat)
  fetchResult : Except JsError FetchResponse
  clock : Nat → Nat

def readImageM (env : Env) (path : String) : Except JsError ImgData :=
  match env.readFile path with
  | .error e => .error e
  | .ok bytes => .ok (readImageAsBase64 path bytes)

-- --- Tool handlers (src/tools/images.ts) ---

structure GenerateImageArgs where
  prompt : String
  model : ModelChoice
  aspect_ratio : String
  image_size : String
  output_dir : String
deriving DecidableEq, Repr

def generateOptions (args : GenerateImageArgs) : GenerateOptions :=
  { model := args.model,
    parts := [{ text := some args.prompt }],
    responseModalities := ["TEXT", "IMAGE"],
    aspectRatio := some args.aspect_ratio,
    imageSize := some args.image_size }

def genNoImageMsg : String :=
  "No image was generated. The model may have refused the prompt due to safety filters. Try rephrasing."

/- The tail of the generate_image try-block, from `const result = extractResult(...)`
on. The non-null assertions `response.candidates!`, `candidates[0]` and `imagePart!`
are modelled with default values; on this path the truthy imagePath guarantees they
are never consulted. -/
def genFinish (args : GenerateImageArgs) (response : GeminiResponse) :
    Except JsError (ExtractedResult × List FileWrite) → Except JsError (Envelope × List FileWrite)
  | .error e => .error e
  | .ok pr =>
    if strTruthy pr.1.imagePath = false then
      .ok (toolError genNoImageMsg, pr.2)
    else
      let parts := ((response.candidates.getD []).headD default).content.parts
      let imagePart := parts.find? partHasImage
      .ok (toolResultWithImage
            (MetaData.gen
              { saved_to := pr.1.imagePath.getD "",
                model := args.model,
                aspect_ratio := args.aspect_ratio,
                image_size := args.image_size,
                description := pr.1.text })
            (partData (imagePart.getD default)), pr.2)

-- The generate_image try-block after the awaited generateContent call.
def genAfterCall (env : Env) (args : GenerateImageArgs) :
    Except JsError GeminiResponse → Except JsError (Envelope × List FileWrite)
  | .error e => .error e
  | .ok response => genFinish args response (extractResult env.clock response args.output_dir)

-- The whole try-block of the generate_image handler.
def generateImageBody (env : Env) (args : GenerateImageArgs) :
    Except JsError (Envelope × List FileWrite) :=
  genAfterCall env args (generateContentWith env.fetchResult (generateOptions args))

def generateImageHandler (env : Env) (args : GenerateImageArgs) : Envelope × List FileWrite :=
  match generateImageBody env args with
  | .ok r => r
  | .error e => (toolError ("Failed to generate image: " ++ JsError.message e), [])

structure EditImageArgs where
  image_path : String
  instruction : String
  model : ModelChoice
  aspect_ratio : Option String
  image_size : String
  output_dir : String
deriving DecidableEq, Repr

def editOptions (args : EditImageArgs) (img : ImgData) : GenerateOptions :=
  { model := args.model,
    parts := [{ inlineData := some { mimeType := img.mimeType, data := img.data } },
              { text := some args.instruction }],
    responseModalities := ["TEXT", "IMAGE"],
    aspectRatio := args.aspect_ratio,
    imageSize := some args.image_size }

def editNoImageMsg : String :=
  "No image was generated. The model may have refused the edit. Try a different instruction."

def editFinish (args : EditImageArgs) (response : GeminiResponse) :
    Except JsError (ExtractedResult × List FileWrite) → Except JsError (Envelope × List FileWrite)
  | .error e => .error e
  | .ok pr =>
    if strTruthy pr.1.imagePath = false then
      .ok (toolError editNoImageMsg, pr.2)
    else
      let parts := ((response.candidates.getD []).headD default).content.parts
      let imagePart := parts.find? partHasImage
      .ok (toolResultWithImage
            (MetaData.edit
              { saved_to := pr.1.imagePath.getD "",
                source := args.image_path,
                instruction := args.instruction,
                model := args.model,
                description := pr.1.text })
            (partData (imagePart.getD default)), pr.2)

def editAfterCall (env : Env) (args : EditImageArgs) :
    Except JsError GeminiResponse → Except JsError (Envelope × List FileWrite)
  | .error e => .error e
  | .ok response => editFinish args response (extractResult env.clock response args.output_dir)

def editAfterRead (env : Env) (args : EditImageArgs) :
    Except JsError ImgData → Except JsError (Envelope × List FileWrite)
  | .error e => .error e
  | .ok img => editAfterCall env args (generateContentWith env.fetchResult (editOptions args img))

def editImageBody (env : Env) (args : EditImageArgs) :
    Except JsError (Envelope × List FileWrite) :=
  editAfterRead env args (readImageM env args.image_path)

def editImageHandler (env : Env) (args : EditImageArgs) : Envelope × List FileWrite :=
  match editImageBody env args with
  | .ok r => r
  | .error e => (toolError ("Failed to edit image: " ++ JsError.message e), [])

structure ComposeArgs where
  image_paths : List String
  instruction : String
  model : ModelChoice
  aspect_ratio : String
  image_size : String
  output_dir : String
deriving DecidableEq, Repr

-- image_paths.map(readImageAsBase64 ...): the first failing read throws.
def composeParts (env : Env) : List String → Except JsError (List GeminiPart)
  | [] => .ok []
  | p :: rest =>
    match readImageM env p with
    | .error e => .error e
    | .ok img =>
      match composeParts env rest with
      | .error e => .error e
      | .ok others =>
        .ok ({ inlineData := some { mimeType := img.mimeType, data := img.data } } :: others)

def composeOptions (args : ComposeArgs) (parts : List GeminiPart) : GenerateOptions :=
  { model := args.model,
    parts := parts ++ [{ text := some args.instruction }],
    responseModalities := ["TEXT", "IMAGE"],
    aspectRatio := some args.aspect_ratio,
    imageSize := some args.image_size }

def composeNoImageMsg : String :=
  "No image was generated from composition. Try a different instruction."

def composeFinish (args : ComposeArgs) (response : GeminiResponse) :
    Except JsError (ExtractedResult × List FileWrite) → Except JsError (Envelope × List FileWrite)
  | .error e => .error e
  | .ok pr =>
    if strTruthy pr.1.imagePath = false then
      .ok (toolError composeNoImageMsg, pr.2)
    else
      let parts0 := ((response.candidates.getD []).headD default).content.parts
      let imagePart := parts0.find? partHasImage
      .ok (toolResultWithImage
            (MetaData.compose
              { saved_to := pr.1.imagePath.getD "",
                sources := args.image_paths,
                instruction := args.instruction,
                model := args.model,
                description := pr.1.text })
            (partData (imagePart.getD default)), pr.2)

def composeAfterCall (env : Env) (args : ComposeArgs) :
    Except JsError GeminiResponse → Except JsError (Envelope × List FileWrite)
  | .error e => .error e
  | .ok response => composeFinish args response (extractResult env.clock response args.output_dir)

def composeAfterRead (env : Env) (args : ComposeArgs) :
    Except JsError (List GeminiPart) → Except JsError (Envelope × List FileWrite)
  | .error e => .error e
  | .ok parts => composeAfterCall env args (generateContentWith env.fetchResult (composeOptions args parts))

def composeImagesBody (env : Env) (args : ComposeArgs) :
    Except JsError (Envelope × List FileWrite) :=
  composeAfterRead env args (composeParts env args.image_paths)

def composeImagesHandler (env : Env) (args : ComposeArgs) : Envelope × List FileWrite :=
  match composeImagesBody env args with
  | .ok r => r
  | .error e => (toolError ("Failed to compose images: " ++ JsError.message e), [])

structure DescribeArgs where
  image_path : String
  prompt : String
  model : ModelChoice
deriving DecidableEq, Repr

def describeOptions (args : DescribeArgs) (img : ImgData) : GenerateOptions :=
  { model := args.model,
    parts := [{ inlineData := some { mimeType := img.mimeType, data := img.data } },
              { text := some args.prompt }],
    responseModalities := ["TEXT"] }

def describeFromCandidates (args : DescribeArgs) :
    Option (List GeminiCandidate) → Except JsError Envelope
  | none => .ok (toolError "No description was generated.")
  | some [] => .ok (toolError "No description was generated.")
  | some (c :: _) =>
    let textParts := String.intercalate "\n"
      ((c.content.parts.filter (fun p => strTruthy p.text)).map partTextVal)
    .ok (toolResult (MetaData.describe
      { image_path := args.image_path, description := textParts, model := args.model }))

def describeAfterCall (args : DescribeArgs) :
    Except JsError GeminiResponse → Except JsError Envelope
  | .error e => .error e
  | .ok response => describeFromCandidates args response.candidates

def describeAfterRead (env : Env) (args : DescribeArgs) :
    Except JsError ImgData → Except JsError Envelope
  | .error e => .error e
  | .ok img => describeAfterCall args (generateContentWith env.fetchResult (describeOptions args img))

def describeImageBody (env : Env) (args : DescribeArgs) : Except JsError Envelope :=
  describeAfterRead env args (readImageM env args.image_path)

def describeImageHandler (env : Env) (args : DescribeArgs) : Envelope :=
  match describeImageBody env args with
  | .ok r => r
  | .error e => toolError ("Failed to describe image: " ++ JsError.message e)

-- --- Input schema validation (zod schemas of src/tools/images.ts) ---

def aspectRatioEnum : List String :=
  ["1:1", "16:9", "9:16", "4:3", "3:4", "3:2", "2:3", "21:9", "4:5", "5:4"]

def imageSizeEnum : List String := ["1K", "2K", "4K"]

-- compose_images inputSchema: image_paths 1..14 entries, instruction non-empty,
-- aspect_ratio and image_size members of their closed enumerations.
def composeSchemaValid (args : ComposeArgs) : Bool :=
  1 ≤ args.image_paths.length && args.image_paths.length ≤ 14 &&
  1 ≤ args.instruction.length &&
  aspectRatioEnum.contains args.aspect_ratio &&
  imageSizeEnum.contains args.image_size

/- Modelled from the spec: the protocol dispatcher (the MCP SDK, outside this
repository) validates a call against the declared zod input schema and rejects it
before the handler — and hence any network or file access — runs. -/
def composeDispatch (env : Env) (args : ComposeArgs) :
    Except String (Envelope × List FileWrite) :=
  if composeSchemaValid args then .ok (composeImagesHandler env args)
  else .error "Invalid arguments"

-- --- Spec-side descriptions used in theorem statements ---

-- The texts the loop collects: parts with a truthy (present and non-empty) text field.
def truthyTexts (parts : List GeminiPart) : List String :=
  (parts.filter (fun p => strTruthy p.text)).map partTextVal

-- The parts the loop writes to disk: truthy inline image payload.
def imageParts (parts : List GeminiPart) : List GeminiPart :=
  parts.filter partHasImage

-- The writes produced by a run over exactly these image parts, k-th write at clock k.
def writesOfImages (clock : Nat → Nat) (outputDir : String) : Nat → List GeminiPart → List FileWrite
  | _, [] => []
  | k, p :: rest =>
    (savePath outputDir (clock k), decodeBase64 (partData p)) ::
      writesOfImages clock outputDir (k + 1) rest

-- Presence-based readings (a field that is present, even if empty): these follow the
-- words of the spec, to be compared against the truthiness the code actually applies.
def presentTexts (parts : List GeminiPart) : List String :=
  (parts.filter (fun p => p.text.isSome)).map partTextVal

def presentImages (parts : List GeminiPart) : List GeminiPart :=
  parts.filter (fun p => p.inlineData.isSome)

-- The base64 payload of the inline image item of a success envelope.
def envelopeInlineData (e : Envelope) : Option String :=
  match e.content with
  | ContentItem.image d _ :: _ => some d
  | _ => none

def metaSavedTo : MetaData → Option String
  | .gen m => some m.saved_to
  | .edit m => some m.saved_to
  | .compose m => some m.saved_to
  | .describe _ => none

-- The saved_to field of the JSON metadata item of a success envelope.
def envelopeSavedTo (e : Envelope) : Option String :=
  match e.content with
  | [ContentItem.image _ _, ContentItem.json m] => metaSavedTo m
  | [ContentItem.json m] => metaSavedTo m
  | _ => none

def allSamePayload : List GeminiPart → Bool
  | [] => true
  | p :: rest => rest.all (fun q => partData q == partData p)

/- The first-inline / last-saved property of one image-bearing handler result `r`,
relative to the truthy image parts `imgs` of the first candidate: the inline item
carries the payload of the first image part, the file at the saved_to path of the
JSON metadata holds the decoded bytes of the last one, the two differ whenever the
first and last payloads decode differently, and they coincide in the
single-image-part case. -/
def inlineSavedSpec (r : Envelope × List FileWrite) (imgs : List GeminiPart)
    (firstP lastP : GeminiPart) : Prop :=
  envelopeInlineData r.1 = some (partData firstP) ∧
  ∃ sp, envelopeSavedTo r.1 = some sp ∧
    fsRead r.2 sp = some (decodeBase64 (partData lastP)) ∧
    (decodeBase64 (partData firstP) ≠ decodeBase64 (partData lastP) →
      (envelopeInlineData r.1).map decodeBase64 ≠ fsRead r.2 sp) ∧
    (imgs.length = 1 →
      (envelopeInlineData r.1).map decodeBase64 = fsRead r.2 sp)

def jpgTail : List Char := ['.', 'j', 'p', 'g']

-- --- The claims exactly as stated, for the ones the code refutes ---

/- Claim C1 as stated: with candidates absent or empty, an error descriptor is
surfaced with the code of the descriptor, 500 only when the code is unset. -/
def claimC1 : Prop :=
  ∀ (clock : Nat → Nat) (resp : GeminiResponse) (dir : String),
    (resp.candidates = none ∨ resp.candidates = some []) →
    match resp.error with
    | some e => extractResult clock resp dir = .error (.gemini (e.code.getD 500) e.message)
    | none => extractResult clock resp dir = .ok ({ text := none, imagePath := none }, [])

/- Claim C3 as stated: every part of the first candidate that has a text field
contributes its text; every part carrying an inline image payload is written, the
last one determining imagePath. -/
def claimC3 : Prop :=
  ∀ (clock : Nat → Nat) (resp : GeminiResponse) (dir : String)
    (c : GeminiCandidate) (cs : List GeminiCandidate),
    resp.candidates = some (c :: cs) →
    ∃ writes, extractResult clock resp dir = .ok (
      { text := if presentTexts c.content.parts = [] then none
                else some (String.intercalate "\n" (presentTexts c.content.parts)),
        imagePath := if presentImages c.content.parts = [] then none
                     else some (savePath dir (clock ((presentImages c.content.parts).length - 1))) },
      writes)

/- Claim C5 as stated: imageConfig present iff image output requested and at least
one of the two options supplied; when present it holds exactly the supplied subset. -/
def claimC5 : Prop :=
  ∀ options : GenerateOptions,
    (buildRequestBody options).generationConfig.responseModalities = options.responseModalities ∧
    ((buildRequestBody options).generationConfig.imageConfig.isSome = true ↔
      (options.responseModalities.contains "IMAGE" = true ∧
       (options.aspectRatio.isSome = true ∨ options.imageSize.isSome = true))) ∧
    (∀ cfg, (buildRequestBody options).generationConfig.imageConfig = some cfg →
      cfg.aspectRatio = options.aspectRatio ∧ cfg.imageSize = options.imageSize)

/- Claim C8 as stated: data is the base64 of the raw bytes; a path ending ".jpg"
yields image/jpeg; an extension outside the table yields image/png. -/
def claimC8 : Prop :=
  ∀ (path : String) (bytes : List Nat),
    (readImageAsBase64 path bytes).data = encodeBase64 bytes ∧
    ((∃ pre, path.data = pre ++ jpgTail) →
      (readImageAsBase64 path bytes).mimeType = "image/jpeg") ∧
    ((mimeMap.lookup (strToLower (extname path))).isNone = true →
      (readImageAsBase64 path bytes).mimeType = "image/png")

/- Claim C9 as stated: on an image-bearing success of generate_image, the inline item
carries the payload of the first image part, the file at saved_to the decoded bytes of
the last; with more than one image part of differing payloads the two differ; with a
single image part they coincide. -/
def claimC9 : Prop :=
  ∀ (env : Env) (args : GenerateImageArgs) (resp : GeminiResponse)
    (c : GeminiCandidate) (cs : List GeminiCandidate) (firstP lastP : GeminiPart),
    generateContentWith env.fetchResult (generateOptions args) = .ok resp →
    resp.candidates = some (c :: cs) →
    (imageParts c.content.parts).head? = some firstP →
    (imageParts c.content.parts).getLast? = some lastP →
    envelopeInlineData (generateImageHandler env args).1 = some (partData firstP) ∧
    (∀ sp, envelopeSavedTo (generateImageHandler env args).1 = some sp →
      fsRead (generateImageHandler env args).2 sp = some (decodeBase64 (partData lastP)) ∧
      (2 ≤ (imageParts c.content.parts).length ∧
          allSamePayload (imageParts c.content.parts) = false →
        (envelopeInlineData (generateImageHandler env args).1).map decodeBase64 ≠
          fsRead (generateImageHandler env args).2 sp) ∧
      ((imageParts c.content.parts).length = 1 →
        (envelopeInlineData (generateImageHandler env args).1).map decodeBase64 =
          fsRead (generateImageHandler env args).2 sp))

-- --- Concrete fixtures for counterexamples and witnesses ---

def zeroClock : Nat → Nat := fun _ => 0
def idClock : Nat → Nat := fun k => k

def respC1 : GeminiResponse :=
  { candidates := none, error := some { message := "m", code := some 0 } }

def respC1W : GeminiResponse :=
  { candidates := some [], error := some { message := "blocked", code := some 403 } }

def respC1X : GeminiResponse := { candidates := some [] }

def partImg (d : String) : GeminiPart :=
  { inlineData := some { mimeType := "image/png", data := d } }

def candC3 : GeminiCandidate :=
  { content := { parts := [{ text := some "" }, { text := some "A" }, partImg ""],
                 role := "model" } }

def respC3 : GeminiResponse := { candidates := some [candC3] }

def candC3W : GeminiCandidate :=
  { content := { parts := [{ text := some "A" }, { text := some "B" }, partImg "QUJD"],
                 role := "model" } }

def respC3W : GeminiResponse := { candidates := some [candC3W] }

def optsC5 : GenerateOptions :=
  { model := .flash, parts := [], responseModalities := ["IMAGE"],
    aspectRatio := some "", imageSize := none }

def optsC5W : GenerateOptions :=
  { model := .pro, parts := [], responseModalities := ["TEXT", "IMAGE"],
    aspectRatio := some "16:9", imageSize := none }

def optsPlain : GenerateOptions :=
  { model := .flash, parts := [], responseModalities := ["TEXT"] }

def errBodyC2 : Option ErrBody := some { message := none, error := some { message := some "boom" } }

def errBodyC2R : Option ErrBody := some { message := some "ignored", error := none }

def envBoom : Env :=
  { readFile := fun _ => .error (.generic "boom"),
    fetchResult := .error (.generic "boom"),
    clock := idClock }

def argsGen : GenerateImageArgs :=
  { prompt := "a cat", model := .flash, aspect_ratio := "1:1", image_size := "1K",
    output_dir := "out" }

def argsEdit : EditImageArgs :=
  { image_path := "a.png", instruction := "do it", model := .flash,
    aspect_ratio := none, image_size := "1K", output_dir := "out" }

def argsCompose : ComposeArgs :=
  { image_paths := ["a.png"], instruction := "blend", model := .flash,
    aspect_ratio := "1:1", image_size := "1K", output_dir := "out" }

def argsCompose15 : ComposeArgs :=
  { image_paths := List.replicate 15 "a.png", instruction := "blend", model := .pro,
    aspect_ratio := "1:1", image_size := "1K", output_dir := "out" }

def argsDescribe : DescribeArgs :=
  { image_path := "a.png", prompt := "Describe this image in detail.", model := .flash }

def ok200 (g : GeminiResponse) : FetchResponse :=
  { status := 200, statusText := "OK", body := some g }

def candC7 : GeminiCandidate :=
  { content := { parts := [{ text := some "refused" }], role := "model" } }

def respC7 : GeminiResponse := { candidates := some [candC7] }

def envC7 : Env :=
  { readFile := fun _ => .ok [], fetchResult := .ok (ok200 respC7), clock := idClock }

def candC9W : GeminiCandidate :=
  { content := { parts := [{ text := some "hi" }, partImg "QUJD", partImg "WFla"],
                 role := "model" } }

def respC9W : GeminiResponse := { candidates := some [candC9W] }

def envC9W : Env :=
  { readFile := fun _ => .ok [], fetchResult := .ok (ok200 respC9W), clock := idClock }

def candC9X : GeminiCandidate :=
  { content := { parts := [partImg "QUJD", partImg "WFla", partImg "QUJD"],
                 role := "model" } }

def respC9X : GeminiResponse := { candidates := some [candC9X] }

def envC9X : Env :=
  { readFile := fun _ => .ok [], fetchResult := .ok (ok200 respC9X), clock := idClock }

def candC10 : GeminiCandidate :=
  { content := { parts := [{ text := none, inlineData := none }], role := "model" } }

def respC10 : GeminiResponse := { candidates := some [candC10] }

def envC10 : Env :=
  { readFile := fun _ => .ok [9], fetchResult := .ok (ok200 respC10), clock := idClock }

-- --- Helper lemmas ---

theorem str_append_ne_left (a b : String) (h : a ≠ "") : a ++ b ≠ "" := by
  intro hab
  apply h
  apply String.ext
  have hd := congrArg String.data hab
  rw [String.data_append] at hd
  simpa using (List.append_eq_nil.mp (by simpa using hd)).1

theorem savePath_ne (dir : String) (ts : Nat) : savePath dir ts ≠ "" := by
  unfold savePath joinPath
  split
  · exact str_append_ne_left _ _ (str_append_ne_left _ _ (by decide))
  · split
    · exact str_append_ne_left _ _ (by assumption)
    · exact str_append_ne_left _ _ (str_append_ne_left _ _ (by assumption))

theorem strTruthy_savePath (dir : String) (ts : Nat) :
    strTruthy (some (savePath dir ts)) = true := by
  simpa [strTruthy, bne_iff_ne] using savePath_ne dir ts

theorem truthyTexts_cons (p : GeminiPart) (rest : List GeminiPart) :
    truthyTexts (p :: rest) =
      if strTruthy p.text then partTextVal p :: truthyTexts rest else truthyTexts rest := by
  simp only [truthyTexts, List.filter_cons]
  split <;> simp

theorem imageParts_cons (p : GeminiPart) (rest : List GeminiPart) :
    imageParts (p :: rest) =
      if partHasImage p then p :: imageParts rest else imageParts rest := by
  simp only [imageParts, List.filter_cons]

theorem extractLoop_eq (clock : Nat → Nat) (dir : String) :
    ∀ (parts : List GeminiPart) (texts : List String) (imgPath : Option String)
      (writes : List FileWrite) (k : Nat),
      extractLoop clock dir parts texts imgPath writes k =
        (texts ++ truthyTexts parts,
         (if imageParts parts = [] then imgPath
          else some (savePath dir (clock (k + (imageParts parts).length - 1)))),
         writes ++ writesOfImages clock dir k (imageParts parts)) := by
  intro parts
  induction parts with
  | nil =>
    intro texts imgPath writes k
    simp [extractLoop, truthyTexts, imageParts, writesOfImages]
  | cons p rest ih =>
    intro texts imgPath writes k
    rw [truthyTexts_cons, imageParts_cons]
    by_cases hImg : partHasImage p = true
    · simp only [extractLoop, saveBase64Image, hImg, ite_true, eq_self_iff_true]
      rw [ih]
      simp only [Prod.mk.injEq]
      refine ⟨?_, ?_, ?_⟩
      · by_cases hT : strTruthy p.text = true <;> simp [hT]
      · by_cases hE : imageParts rest = []
        · simp [hE]
        · have h1 : (p :: imageParts rest) ≠ [] := by simp
          simp only [hE, ite_false, h1, if_neg, if_false]
          have h2 : k + 1 + (imageParts rest).length - 1 =
              k + (p :: imageParts rest).length - 1 := by
            simp only [List.length_cons]
            omega
          rw [h2]
      · simp [writesOfImages, List.append_assoc]
    · have hImg2 : partHasImage p = false := by simpa using hImg
      simp only [extractLoop, hImg2, Bool.false_eq_true, if_false, ite_false]
      rw [ih]
      by_cases hT : strTruthy p.text = true <;> simp [hT]

theorem extractResult_main (clock : Nat → Nat) (resp : GeminiResponse) (dir : String)
    (c : GeminiCandidate) (cs : List GeminiCandidate)
    (h : resp.candidates = some (c :: cs)) :
    extractResult clock resp dir =
      .ok ({ text := if truthyTexts c.content.parts = [] then none
                     else some (String.intercalate "\n" (truthyTexts c.content.parts)),
             imagePath := if imageParts c.content.parts = [] then none
                          else some (savePath dir (clock ((imageParts c.content.parts).length - 1))) },
           writesOfImages clock dir 0 (imageParts c.content.parts)) := by
  unfold extractResult
  rw [h]
  have hstep : extractCore clock dir resp.error (some (c :: cs)) =
      (let r := extractLoop clock dir c.content.parts [] none [] 0
       Except.ok ({ text := if r.1.length > 0 then some (String.intercalate "\n" r.1) else none,
                    imagePath := r.2.1 }, r.2.2)) := rfl
  rw [hstep, extractLoop_eq]
  simp only [List.nil_append, Nat.zero_add]
  rcases Decidable.em (truthyTexts c.content.parts = []) with ht | ht
  · simp [ht]
  · simp [ht, List.length_pos.mpr ht]

theorem find?_eq_head?_filter {α : Type} (pred : α → Bool) :
    ∀ l : List α, l.find? pred = (l.filter pred).head? := by
  intro l
  induction l with
  | nil => rfl
  | cons a t ih =>
    rw [List.find?_cons, List.filter_cons]
    cases hp : pred a
    · show List.find? pred t =
        (if false = true then a :: List.filter pred t else List.filter pred t).head?
      rw [if_neg (by simp)]
      exact ih
    · show some a =
        (if true = true then a :: List.filter pred t else List.filter pred t).head?
      rw [if_pos rfl]
      rfl

theorem writesOfImages_last (clock : Nat → Nat) (dir : String) :
    ∀ (l : List GeminiPart) (k : Nat) (p : GeminiPart), l.getLast? = some p →
      ∃ init, writesOfImages clock dir k l =
        init ++ [(savePath dir (clock (k + l.length - 1)), decodeBase64 (partData p))] := by
  intro l
  induction l with
  | nil => intro k p h; exact Option.noConfusion h
  | cons a t ih =>
    intro k p h
    cases t with
    | nil =>
      have ha : a = p := by
        have h3 : some a = some p := h
        exact Option.some.inj h3
      subst ha
      exact ⟨[], by simp [writesOfImages]⟩
    | cons b t2 =>
      have h2 : (b :: t2).getLast? = some p := by
        rw [← List.getLast?_cons_cons]
        exact h
      obtain ⟨init, hi⟩ := ih (k + 1) p h2
      have hidx : k + 1 + (b :: t2).length - 1 = k + (a :: b :: t2).length - 1 := by
        simp only [List.length_cons]
        omega
      refine ⟨(savePath dir (clock k), decodeBase64 (partData a)) :: init, ?_⟩
      have hcons : writesOfImages clock dir k (a :: b :: t2) =
          (savePath dir (clock k), decodeBase64 (partData a)) ::
            writesOfImages clock dir (k + 1) (b :: t2) := rfl
      rw [hcons, hi, hidx]
      simp

theorem fsRead_append_last (init : List FileWrite) (p : String) (d : List Nat) :
    fsRead (init ++ [(p, d)]) p = some d := by
  unfold fsRead
  rw [List.reverse_append]
  simp [List.find?_cons, beq_self_eq_true]

theorem generateImageBody_ok (env : Env) (args : GenerateImageArgs) (resp : GeminiResponse)
    (c : GeminiCandidate) (cs : List GeminiCandidate) (firstP : GeminiPart)
    (hgc : generateContentWith env.fetchResult (generateOptions args) = .ok resp)
    (hcand : resp.candidates = some (c :: cs))
    (hfirst : (imageParts c.content.parts).head? = some firstP) :
    generateImageBody env args = .ok
      (toolResultWithImage
        (MetaData.gen
          { saved_to := savePath args.output_dir (env.clock ((imageParts c.content.parts).length - 1)),
            model := args.model,
            aspect_ratio := args.aspect_ratio,
            image_size := args.image_size,
            description := if truthyTexts c.content.parts = [] then none
                           else some (String.intercalate "\n" (truthyTexts c.content.parts)) })
        (partData firstP),
       writesOfImages env.clock args.output_dir 0 (imageParts c.content.parts)) := by
  have hne : imageParts c.content.parts ≠ [] := by
    intro h0
    rw [h0] at hfirst
    exact Option.noConfusion hfirst
  have hfind : c.content.parts.find? partHasImage = some firstP := by
    rw [find?_eq_head?_filter]
    exact hfirst
  unfold generateImageBody
  rw [hgc]
  simp only [genAfterCall]
  rw [extractResult_main env.clock resp args.output_dir c cs hcand]
  rw [if_neg hne]
  simp only [genFinish]
  simp only [strTruthy_savePath, Bool.true_eq_false, if_false, ite_false, hcand,
    Option.getD_some, List.headD_cons, hfind]

-- --- Claim C1 ---

/-- Claim C1 counterexample: extractResult on a response with no candidates and an
error descriptor whose code is 0 raises status 500, not the code 0 of the descriptor:
`response.error.code || 500` treats a zero code like an unset one, so the claim as
stated (default 500 only when the code is unset) fails. -/
theorem claimC1_cex : ¬ claimC1 := by
  intro h
  have h2 : extractResult zeroClock respC1 "." = .error (.gemini 0 "m") :=
    h zeroClock respC1 "." (Or.inl rfl)
  have h3 : extractResult zeroClock respC1 "." = .error (.gemini 500 "m") := rfl
  rw [h3] at h2
  simp at h2

/-- Claim C1 (amended): for every GenerationResponse whose candidates field is absent
or empty, if an error descriptor is present extractResult raises a typed API error
carrying the code of the descriptor — defaulting to 500 when the code is unset or
zero (JS falsiness of `code || 500`) — and its message; otherwise it returns
text null and imagePath null, writing nothing and not raising. -/
theorem extract_no_candidates_amended (clock : Nat → Nat) (resp : GeminiResponse)
    (dir : String) (h : resp.candidates = none ∨ resp.candidates = some []) :
    extractResult clock resp dir =
      match resp.error with
      | some e => .error (.gemini (jsNumOr e.code 500) e.message)
      | none => .ok ({ text := none, imagePath := none }, []) := by
  unfold extractResult
  rcases h with h | h <;> rw [h] <;> simp only [extractCore] <;>
    cases herr : resp.error <;> simp [extractEmpty, herr]

/-- Witness for the amended C1, at the two responses named by the spec: error
code 403 message "blocked" raises exactly that; empty candidates with no error
descriptor yield the all-null result. -/
theorem extract_no_candidates_amended_witness :
    extractResult zeroClock respC1W "." = .error (.gemini 403 "blocked") ∧
    extractResult zeroClock respC1X "." = .ok ({ text := none, imagePath := none }, []) := by
  constructor
  · rw [extract_no_candidates_amended zeroClock respC1W "." (Or.inr rfl)]
    rfl
  · rw [extract_no_candidates_amended zeroClock respC1X "." (Or.inr rfl)]
    rfl

-- --- Claim C2 ---

-- The `body.message || body.error?.message || statusText` chain, spelled as the
-- ordered fallback the spec describes ("else" = the JS falsy fallback).
theorem deriveMsg_chain (body : Option ErrBody) (statusText : String) :
    deriveErrorMessage body statusText =
      (let fb :=
        match (body.getD {}).error with
        | some inner =>
          match inner.message with
          | some m2 => if m2 = "" then statusText else m2
          | none => statusText
        | none => statusText
       match (body.getD {}).message with
       | some m => if m = "" then fb else m
       | none => fb) := by
  rcases body with _ | ⟨bm, be⟩
  · rfl
  · rcases bm with _ | m <;> rcases be with _ | ⟨im⟩ <;>
      first
      | rfl
      | (rcases im with _ | m2 <;> rfl)

/-- Claim C2: for every non-2xx HTTP response, generateContent raises a
GeminiApiError carrying the numeric status; for status 429 the message is the fixed
rate-limit message regardless of the body; for every other non-2xx status the message
embeds the numeric status and is derived from body.message, else body.error.message,
else the raw HTTP status text, a malformed or absent JSON body being treated as an
empty object. -/
theorem generateContent_non2xx (status : Nat) (statusText : String)
    (errBody : Option ErrBody) (rbody : Option GeminiResponse) (opts : GenerateOptions)
    (h : respOk status = false) :
    generateContentWith (.ok { status := status, statusText := statusText,
                               errBody := errBody, body := rbody }) opts =
      .error (.gemini status
        (if status = 429 then rateLimitMessage
         else "Gemini API error (" ++ toString status ++ "): " ++
           (let fb :=
             match (errBody.getD {}).error with
             | some inner =>
               match inner.message with
               | some m2 => if m2 = "" then statusText else m2
               | none => statusText
             | none => statusText
            match (errBody.getD {}).message with
            | some m => if m = "" then fb else m
            | none => fb))) := by
  unfold generateContentWith
  simp only [h, Bool.false_eq_true, if_false, ite_false]
  unfold non2xxError
  rw [deriveMsg_chain]
  by_cases h429 : status = 429
  · simp [h429]
  · simp [h429]

/-- Witness for C2: a 404 with only body.error.message present derives that message
with the status embedded; a 429 with a body.message present still produces the fixed
rate-limit message. -/
theorem generateContent_non2xx_witness :
    generateContentWith
        (.ok { status := 404, statusText := "Not Found",
               errBody := errBodyC2, body := none }) optsPlain =
      .error (.gemini 404 "Gemini API error (404): boom") ∧
    generateContentWith
        (.ok { status := 429, statusText := "Too Many Requests",
               errBody := errBodyC2R, body := none }) optsPlain =
      .error (.gemini 429 rateLimitMessage) := by
  constructor
  · rw [generateContent_non2xx 404 "Not Found" errBodyC2 none optsPlain (by decide)]
    rfl
  · rw [generateContent_non2xx 429 "Too Many Requests" errBodyC2R none optsPlain (by decide)]
    rfl

-- --- Claim C3 ---

/-- Claim C3 counterexample: on a first candidate holding a part with an empty text
field, a part with text "A" and a part with an empty inline payload, the claim as
stated predicts text "\nA" (every part with a text field contributes) and a non-null
imagePath (the empty-payload part carries an inline image payload); the code skips
both falsy fields and produces text "A" and a null imagePath. -/
theorem claimC3_cex : ¬ claimC3 := by
  intro h
  obtain ⟨writes, hw⟩ := h zeroClock respC3 "" candC3 [] rfl
  have hact : extractResult zeroClock respC3 "" =
      .ok ({ text := some "A", imagePath := none }, []) := rfl
  rw [hact] at hw
  have htext : some "A" =
      (if presentTexts candC3.content.parts = [] then none
       else some (String.intercalate "\n" (presentTexts candC3.content.parts))) :=
    congrArg (fun x => x.1.text) (Except.ok.inj hw)
  exact absurd htext (by decide)

/-- Claim C3 (amended): for every response with at least one candidate, extractResult
returns text joining, with "\n" in encounter order, the non-empty text fields of the
first candidate (null when there are none); it writes one file per part of the first
candidate with a non-empty inline payload, the k-th write at clock k, and imagePath
is the path written for the last such part (null when there is none), later parts
overwriting the recorded path of earlier ones; candidates after the first contribute
nothing. -/
theorem extract_first_candidate_amended (clock : Nat → Nat) (resp : GeminiResponse)
    (dir : String) (c : GeminiCandidate) (cs : List GeminiCandidate)
    (h : resp.candidates = some (c :: cs)) :
    extractResult clock resp dir = .ok
      ({ text := if truthyTexts c.content.parts = [] then none
                 else some (String.intercalate "\n" (truthyTexts c.content.parts)),
         imagePath := if imageParts c.content.parts = [] then none
                      else some (savePath dir (clock ((imageParts c.content.parts).length - 1))) },
       writesOfImages clock dir 0 (imageParts c.content.parts)) :=
  extractResult_main clock resp dir c cs h

/-- Witness for the amended C3, at the response named by the spec: text parts "A" and
"B" and one image part yield text "A\nB", a non-null imagePath and one written file
holding the decoded payload. -/
theorem extract_first_candidate_amended_witness :
    extractResult idClock respC3W "out" = .ok
      ({ text := some "A\nB", imagePath := some "out/nano-banana-0.png" },
       [("out/nano-banana-0.png", [65, 66, 67])]) := by
  rw [extract_first_candidate_amended idClock respC3W "out" candC3W [] rfl]
  rfl

-- --- Claim C4 ---

/-- Claim C4: for each of the four tools, any exception raised during part assembly,
the endpoint call, or extraction is caught at the handler boundary and converted into
an error envelope: isError true and a single text item holding the message of the
exception prefixed with the operation name; the handlers are total, so no raw
exception ever reaches the protocol dispatcher. -/
theorem handlers_catch_exceptions (env : Env) (ga : GenerateImageArgs)
    (ea : EditImageArgs) (ca : ComposeArgs) (da : DescribeArgs) (e : JsError) :
    (generateImageBody env ga = .error e →
      generateImageHandler env ga =
        ({ isError := true,
           content := [ContentItem.text ("Failed to generate image: " ++ JsError.message e)] }, [])) ∧
    (editImageBody env ea = .error e →
      editImageHandler env ea =
        ({ isError := true,
           content := [ContentItem.text ("Failed to edit image: " ++ JsError.message e)] }, [])) ∧
    (composeImagesBody env ca = .error e →
      composeImagesHandler env ca =
        ({ isError := true,
           content := [ContentItem.text ("Failed to compose images: " ++ JsError.message e)] }, [])) ∧
    (describeImageBody env da = .error e →
      describeImageHandler env da =
        { isError := true,
          content := [ContentItem.text ("Failed to describe image: " ++ JsError.message e)] }) := by
  refine ⟨?_, ?_, ?_, ?_⟩
  · intro h
    unfold generateImageHandler
    rw [h]
    rfl
  · intro h
    unfold editImageHandler
    rw [h]
    rfl
  · intro h
    unfold composeImagesHandler
    rw [h]
    rfl
  · intro h
    unfold describeImageHandler
    rw [h]
    rfl

/-- Witness for C4: with a filesystem and network that both throw "boom", each of the
four handlers returns exactly the prefixed error envelope and performs no write. -/
theorem handlers_catch_exceptions_witness :
    generateImageHandler envBoom argsGen =
      ({ isError := true, content := [ContentItem.text "Failed to generate image: boom"] }, []) ∧
    editImageHandler envBoom argsEdit =
      ({ isError := true, content := [ContentItem.text "Failed to edit image: boom"] }, []) ∧
    composeImagesHandler envBoom argsCompose =
      ({ isError := true, content := [ContentItem.text "Failed to compose images: boom"] }, []) ∧
    describeImageHandler envBoom argsDescribe =
      { isError := true, content := [ContentItem.text "Failed to describe image: boom"] } := by
  have h := handlers_catch_exceptions envBoom argsGen argsEdit argsCompose argsDescribe
    (.generic "boom")
  exact ⟨h.1 rfl, h.2.1 rfl, h.2.2.1 rfl, h.2.2.2 rfl⟩

-- --- Claim C5 ---

/-- Claim C5 counterexample: with image output requested and aspectRatio supplied as
the empty string, the claim as stated demands an imageConfig (a field was supplied),
but `options.aspectRatio || options.imageSize` is falsy on both, so the code omits
imageConfig. -/
theorem claimC5_cex : ¬ claimC5 := by
  intro h
  have h2 := (h optsC5).2.1
  have h3 : (buildRequestBody optsC5).generationConfig.imageConfig.isSome = true :=
    h2.mpr ⟨by decide, Or.inl (by decide)⟩
  exact absurd h3 (by decide)

/-- Claim C5 (amended): generationConfig.responseModalities is present (it echoes the
requested modalities) in every request; generationConfig.imageConfig is present iff
"IMAGE" is among the modalities and at least one of aspectRatio / imageSize was
supplied as a non-empty string; when present it carries exactly the non-empty subset
of the two fields and nothing else. -/
theorem buildRequestBody_imageConfig_amended (options : GenerateOptions) :
    (buildRequestBody options).generationConfig.responseModalities = options.responseModalities ∧
    ((buildRequestBody options).generationConfig.imageConfig.isSome = true ↔
      (options.responseModalities.contains "IMAGE" = true ∧
       (strTruthy options.aspectRatio = true ∨ strTruthy options.imageSize = true))) ∧
    (∀ cfg, (buildRequestBody options).generationConfig.imageConfig = some cfg →
      cfg.aspectRatio = (if strTruthy options.aspectRatio then options.aspectRatio else none) ∧
      cfg.imageSize = (if strTruthy options.imageSize then options.imageSize else none)) := by
  unfold buildRequestBody buildGenerationConfig
  by_cases hc : (options.responseModalities.contains "IMAGE" &&
      (strTruthy options.aspectRatio || strTruthy options.imageSize)) = true
  · rw [if_pos hc]
    refine ⟨rfl, ?_, ?_⟩
    · constructor
      · intro _
        have hc2 := hc
        simp only [Bool.and_eq_true, Bool.or_eq_true] at hc2
        exact hc2
      · intro _
        rfl
    · intro cfg hcfg
      cases hcfg
      exact ⟨rfl, rfl⟩
  · rw [if_neg hc]
    refine ⟨rfl, ?_, ?_⟩
    · constructor
      · intro hfalse
        simp at hfalse
      · rintro ⟨h1, h2⟩
        exfalso
        apply hc
        rw [h1]
        rcases h2 with h2 | h2 <;> simp [h2]
    · intro cfg hcfg
      exact Option.noConfusion hcfg

/-- Witness for the amended C5: modalities TEXT and IMAGE with aspectRatio "16:9"
supplied and no imageSize produce an imageConfig holding only the aspect ratio. -/
theorem buildRequestBody_imageConfig_witness :
    (buildRequestBody optsC5W).generationConfig.responseModalities = ["TEXT", "IMAGE"] ∧
    (buildRequestBody optsC5W).generationConfig.imageConfig =
      some { aspectRatio := some "16:9", imageSize := none } := by
  have h := buildRequestBody_imageConfig_amended optsC5W
  exact ⟨h.1, by rfl⟩

-- --- Claim C6 ---

/-- Claim C6: compose_images accepts 1 to 14 image paths (with the other schema
fields valid); a call with zero or with 15 or more paths is rejected at the
schema-validation boundary — for every environment, so before any network or file
access, and for both model choices since the model is universally quantified. -/
theorem compose_schema_bounds (env : Env) (args : ComposeArgs) :
    ((args.image_paths.length = 0 ∨ 15 ≤ args.image_paths.length) →
      composeDispatch env args = .error "Invalid arguments") ∧
    (1 ≤ args.image_paths.length → args.image_paths.length ≤ 14 →
      1 ≤ args.instruction.length →
      aspectRatioEnum.contains args.aspect_ratio = true →
      imageSizeEnum.contains args.image_size = true →
      composeDispatch env args = .ok (composeImagesHandler env args)) := by
  constructor
  · intro h
    have hv : composeSchemaValid args = false := by
      unfold composeSchemaValid
      rcases h with h | h
      · simp [h]
      · have h14 : ¬(args.image_paths.length ≤ 14) := by omega
        simp [h14]
    unfold composeDispatch
    simp [hv]
  · intro h1 h2 h3 h4 h5
    have hv : composeSchemaValid args = true := by
      unfold composeSchemaValid
      simp [h1, h2, h3]
      exact ⟨by simpa using h4, by simpa using h5⟩
    unfold composeDispatch
    simp [hv]

/-- Witness for C6: a call with 15 paths is rejected with no use of the environment;
a call with one path reaches the handler. -/
theorem compose_schema_bounds_witness :
    composeDispatch envBoom argsCompose15 = .error "Invalid arguments" ∧
    composeDispatch envBoom argsCompose = .ok (composeImagesHandler envBoom argsCompose) := by
  refine ⟨(compose_schema_bounds envBoom argsCompose15).1 (Or.inr (by decide)), ?_⟩
  exact (compose_schema_bounds envBoom argsCompose).2 (by decide) (by decide) (by decide)
    (by decide) (by decide)

-- --- Claim C7 ---

/-- Claim C7: for every generate_image call with a non-empty prompt whose endpoint
response contains no truthy inline-image part — so extraction succeeds with a null
imagePath — the handler returns an error envelope whose single text item is the
fixed no-image message, which contains the phrase "No image was generated.". -/
theorem generate_no_image_envelope (env : Env) (args : GenerateImageArgs)
    (resp : GeminiResponse) (pr : ExtractedResult × List FileWrite)
    (hprompt : args.prompt ≠ "")
    (hgc : generateContentWith env.fetchResult (generateOptions args) = .ok resp)
    (hnoimg : ∀ c ∈ resp.candidates.getD [], ∀ p ∈ c.content.parts, partHasImage p = false)
    (hex : extractResult env.clock resp args.output_dir = .ok pr) :
    generateImageHandler env args = (toolError genNoImageMsg, []) ∧
    (toolError genNoImageMsg).isError = true ∧
    (toolError genNoImageMsg).content = [ContentItem.text genNoImageMsg] ∧
    occursIn "No image was generated." genNoImageMsg = true := by
  have hkey : pr = ({ text := pr.1.text, imagePath := none }, []) := by
    cases hcand : resp.candidates with
    | none =>
      unfold extractResult at hex
      rw [hcand] at hex
      simp only [extractCore] at hex
      cases herr : resp.error with
      | some e =>
        rw [herr] at hex
        simp [extractEmpty] at hex
      | none =>
        rw [herr] at hex
        simp [extractEmpty] at hex
        rw [← hex]
    | some cands =>
      cases cands with
      | nil =>
        unfold extractResult at hex
        rw [hcand] at hex
        simp only [extractCore] at hex
        cases herr : resp.error with
        | some e =>
          rw [herr] at hex
          simp [extractEmpty] at hex
        | none =>
          rw [herr] at hex
          simp [extractEmpty] at hex
          rw [← hex]
      | cons c cs =>
        rw [extractResult_main env.clock resp args.output_dir c cs hcand] at hex
        have hfe : imageParts c.content.parts = [] := by
          apply List.filter_eq_nil_iff.mpr
          intro p hp
          have hfalse := hnoimg c (by rw [hcand]; exact List.mem_cons_self c cs) p hp
          simp [hfalse]
        rw [hfe] at hex
        simp only [writesOfImages] at hex
        simp at hex
        rw [← hex]
  refine ⟨?_, rfl, rfl, by decide⟩
  unfold generateImageHandler generateImageBody
  rw [hgc]
  simp only [genAfterCall]
  rw [hex, hkey]
  simp only [genFinish]
  rfl

/-- Witness for C7: a response whose only candidate holds a single text part makes
generate_image return the no-image error envelope. -/
theorem generate_no_image_envelope_witness :
    generateImageHandler envC7 argsGen = (toolError genNoImageMsg, []) ∧
    occursIn "No image was generated." genNoImageMsg = true := by
  have h := generate_no_image_envelope envC7 argsGen respC7
    ({ text := some "refused", imagePath := none }, []) (by decide) rfl (by decide) rfl
  exact ⟨h.1, h.2.2.2⟩

-- --- Claim C8 ---

/-- Claim C8 counterexample: the path ".jpg" ends in ".jpg", yet node extname treats
a basename whose only dot is its first character as extension-less, so the table is
consulted with "" and the MIME type falls back to image/png, not image/jpeg. -/
theorem claimC8_cex : ¬ claimC8 := by
  intro h
  have h2 := (h ".jpg" []).2.1 ⟨[], by decide⟩
  exact absurd h2 (by decide)

theorem basename_append_jpg (pre : List Char) :
    basenameChars (pre ++ jpgTail) =
      (pre.reverse.takeWhile (fun c => c != '/')).reverse ++ jpgTail := by
  unfold basenameChars
  rw [List.reverse_append]
  have hrev : jpgTail.reverse = ['g', 'p', 'j', '.'] := rfl
  rw [hrev]
  simp only [List.cons_append, List.nil_append]
  rw [List.takeWhile_cons_of_pos (by decide), List.takeWhile_cons_of_pos (by decide),
      List.takeWhile_cons_of_pos (by decide), List.takeWhile_cons_of_pos (by decide)]
  simp [jpgTail]

theorem extname_append_jpg (pre : List Char)
    (hq : (pre.reverse.takeWhile (fun c => c != '/')).reverse ≠ []) :
    extnameChars ((pre.reverse.takeWhile (fun c => c != '/')).reverse ++ jpgTail) = jpgTail := by
  obtain ⟨a, t, hat⟩ := List.exists_cons_of_ne_nil hq
  rw [hat]
  show (if a = '.' ∧ (t ++ jpgTail) = ['.'] then []
        else if (t ++ jpgTail).contains '.' then '.' :: afterLastDot (t ++ jpgTail) else []) =
      jpgTail
  rw [if_neg ?hdots]
  case hdots =>
    rintro ⟨_, hh⟩
    have hlen := congrArg List.length hh
    simp [jpgTail] at hlen
  rw [if_pos ?hdot]
  case hdot =>
    have hm : ('.' : Char) ∈ t ++ jpgTail := by
      simp [jpgTail]
    exact List.elem_iff.mpr hm
  have hafter : afterLastDot (t ++ jpgTail) = ['j', 'p', 'g'] := by
    unfold afterLastDot
    rw [List.reverse_append]
    have hrev : jpgTail.reverse = ['g', 'p', 'j', '.'] := rfl
    rw [hrev]
    simp only [List.cons_append, List.nil_append]
    rw [List.takeWhile_cons_of_pos (by decide), List.takeWhile_cons_of_pos (by decide),
        List.takeWhile_cons_of_pos (by decide), List.takeWhile_cons_of_neg (by decide)]
    rfl
  rw [hafter]
  rfl

/-- Claim C8 (amended): readImageAsBase64 returns the base64 encoding of the raw file
bytes, and derives the MIME type solely from the node-extname extension through the
fixed table (png, jpg, jpeg, gif, webp, bmp): a path ending ".jpg" yields image/jpeg
unless its basename is exactly ".jpg" (a dotfile, treated by node extname as
extension-less), which yields the image/png default; any extension outside the table
also yields image/png. -/
theorem readImage_mime_amended (path : String) (bytes : List Nat) :
    (readImageAsBase64 path bytes).data = encodeBase64 bytes ∧
    ((∃ pre, path.data = pre ++ jpgTail) →
      (readImageAsBase64 path bytes).mimeType =
        (if basenameChars path.data = jpgTail then "image/png" else "image/jpeg")) ∧
    ((mimeMap.lookup (strToLower (extname path))).isNone = true →
      (readImageAsBase64 path bytes).mimeType = "image/png") := by
  have hmt : (readImageAsBase64 path bytes).mimeType =
      jsStrOr (mimeMap.lookup (strToLower (extname path))) "image/png" := rfl
  refine ⟨rfl, ?_, ?_⟩
  · rintro ⟨pre, hpre⟩
    rw [hmt]
    unfold extname
    rw [hpre, basename_append_jpg]
    by_cases hq : (pre.reverse.takeWhile (fun c => c != '/')).reverse = []
    · rw [hq]
      rw [if_pos (by rfl)]
      decide
    · have hne2 : (pre.reverse.takeWhile (fun c => c != '/')).reverse ++ jpgTail ≠ jpgTail := by
        intro hh
        have hlen := congrArg List.length hh
        rw [List.length_append] at hlen
        have hz : (pre.reverse.takeWhile (fun c => c != '/')).reverse.length = 0 := by omega
        exact hq (List.length_eq_zero.mp hz)
      rw [extname_append_jpg pre hq, if_neg hne2]
      decide
  · intro hnone
    rw [hmt]
    cases hlk : mimeMap.lookup (strToLower (extname path)) with
    | none => rfl
    | some v =>
      rw [hlk] at hnone
      simp at hnone

/-- Witness for the amended C8: "photo.jpg" reports image/jpeg with base64 data of
the bytes; the unrecognized extension of "scan.tiff" defaults to image/png. -/
theorem readImage_mime_amended_witness :
    (readImageAsBase64 "photo.jpg" [72, 105]).mimeType = "image/jpeg" ∧
    (readImageAsBase64 "photo.jpg" [72, 105]).data = encodeBase64 [72, 105] ∧
    (readImageAsBase64 "scan.tiff" [72]).mimeType = "image/png" := by
  have h1 := readImage_mime_amended "photo.jpg" [72, 105]
  have h2 := readImage_mime_amended "scan.tiff" [72]
  refine ⟨?_, h1.1, h2.2.2 (by decide)⟩
  have h3 := h1.2.1 ⟨"photo".data, by decide⟩
  rw [h3]
  decide

-- --- Claim C9 ---

/-- Claim C9 counterexample: a first candidate with image payloads A, B, A (more than
one inline-image part with differing payloads) makes the handler return payload A
inline while the file at saved_to also holds the decoded bytes of A — the first and
last image parts coincide, so the returned and saved images do not differ and the
claim as stated fails. -/
theorem claimC9_cex : ¬ claimC9 := by
  intro h
  have h2 := h envC9X argsGen respC9X candC9X [] (partImg "QUJD") (partImg "QUJD")
    rfl rfl (by decide) (by decide)
  have h3 := h2.2 "out/nano-banana-2.png" (by decide)
  exact h3.2.1 ⟨by decide, by decide⟩ (by decide)

theorem editImageBody_ok (env : Env) (args : EditImageArgs) (bytes : List Nat)
    (resp : GeminiResponse) (c : GeminiCandidate) (cs : List GeminiCandidate)
    (firstP : GeminiPart)
    (hread : env.readFile args.image_path = .ok bytes)
    (hgc : generateContentWith env.fetchResult
      (editOptions args (readImageAsBase64 args.image_path bytes)) = .ok resp)
    (hcand : resp.candidates = some (c :: cs))
    (hfirst : (imageParts c.content.parts).head? = some firstP) :
    editImageBody env args = .ok
      (toolResultWithImage
        (MetaData.edit
          { saved_to := savePath args.output_dir (env.clock ((imageParts c.content.parts).length - 1)),
            source := args.image_path,
            instruction := args.instruction,
            model := args.model,
            description := if truthyTexts c.content.parts = [] then none
                           else some (String.intercalate "\n" (truthyTexts c.content.parts)) })
        (partData firstP),
       writesOfImages env.clock args.output_dir 0 (imageParts c.content.parts)) := by
  have hne : imageParts c.content.parts ≠ [] := by
    intro h0
    rw [h0] at hfirst
    exact Option.noConfusion hfirst
  have hfind : c.content.parts.find? partHasImage = some firstP := by
    rw [find?_eq_head?_filter]
    exact hfirst
  have hri : readImageM env args.image_path = .ok (readImageAsBase64 args.image_path bytes) := by
    unfold readImageM
    rw [hread]
  unfold editImageBody
  rw [hri]
  simp only [editAfterRead]
  rw [hgc]
  simp only [editAfterCall]
  rw [extractResult_main env.clock resp args.output_dir c cs hcand]
  rw [if_neg hne]
  simp only [editFinish]
  simp only [strTruthy_savePath, Bool.true_eq_false, if_false, ite_false, hcand,
    Option.getD_some, List.headD_cons, hfind]

theorem composeImagesBody_ok (env : Env) (args : ComposeArgs) (parts : List GeminiPart)
    (resp : GeminiResponse) (c : GeminiCandidate) (cs : List GeminiCandidate)
    (firstP : GeminiPart)
    (hparts : composeParts env args.image_paths = .ok parts)
    (hgc : generateContentWith env.fetchResult (composeOptions args parts) = .ok resp)
    (hcand : resp.candidates = some (c :: cs))
    (hfirst : (imageParts c.content.parts).head? = some firstP) :
    composeImagesBody env args = .ok
      (toolResultWithImage
        (MetaData.compose
          { saved_to := savePath args.output_dir (env.clock ((imageParts c.content.parts).length - 1)),
            sources := args.image_paths,
            instruction := args.instruction,
            model := args.model,
            description := if truthyTexts c.content.parts = [] then none
                           else some (String.intercalate "\n" (truthyTexts c.content.parts)) })
        (partData firstP),
       writesOfImages env.clock args.output_dir 0 (imageParts c.content.parts)) := by
  have hne : imageParts c.content.parts ≠ [] := by
    intro h0
    rw [h0] at hfirst
    exact Option.noConfusion hfirst
  have hfind : c.content.parts.find? partHasImage = some firstP := by
    rw [find?_eq_head?_filter]
    exact hfirst
  unfold composeImagesBody
  rw [hparts]
  simp only [composeAfterRead]
  rw [hgc]
  simp only [composeAfterCall]
  rw [extractResult_main env.clock resp args.output_dir c cs hcand]
  rw [if_neg hne]
  simp only [composeFinish]
  simp only [strTruthy_savePath, Bool.true_eq_false, if_false, ite_false, hcand,
    Option.getD_some, List.headD_cons, hfind]

theorem inlineSavedSpec_of_eq (clock : Nat → Nat) (dir : String) (meta : MetaData)
    (imgs : List GeminiPart) (firstP lastP : GeminiPart)
    (r : Envelope × List FileWrite)
    (hr : r = (toolResultWithImage meta (partData firstP), writesOfImages clock dir 0 imgs))
    (hmeta : metaSavedTo meta = some (savePath dir (clock (imgs.length - 1))))
    (hfirst : imgs.head? = some firstP)
    (hlast : imgs.getLast? = some lastP) :
    inlineSavedSpec r imgs firstP lastP := by
  obtain ⟨init, hw⟩ := writesOfImages_last clock dir imgs 0 lastP hlast
  simp only [Nat.zero_add] at hw
  subst hr
  have hil : envelopeInlineData (toolResultWithImage meta (partData firstP)) =
      some (partData firstP) := rfl
  have hrd : fsRead (writesOfImages clock dir 0 imgs) (savePath dir (clock (imgs.length - 1))) =
      some (decodeBase64 (partData lastP)) := by
    rw [hw]
    exact fsRead_append_last init _ _
  refine ⟨hil, savePath dir (clock (imgs.length - 1)), hmeta, hrd, ?_, ?_⟩
  · intro hneq
    show (envelopeInlineData (toolResultWithImage meta (partData firstP))).map decodeBase64 ≠
      fsRead (writesOfImages clock dir 0 imgs) (savePath dir (clock (imgs.length - 1)))
    rw [hil, hrd]
    simp [hneq]
  · intro hlen
    obtain ⟨x, hx⟩ := List.length_eq_one.mp hlen
    rw [hx] at hfirst hlast
    have h1a : some x = some firstP := hfirst
    have h2a : some x = some lastP := hlast
    have h1 : firstP = x := (Option.some.inj h1a).symm
    have h2 : lastP = x := (Option.some.inj h2a).symm
    show (envelopeInlineData (toolResultWithImage meta (partData firstP))).map decodeBase64 =
      fsRead (writesOfImages clock dir 0 imgs) (savePath dir (clock (imgs.length - 1)))
    rw [hil, hrd, h1, h2]
    simp

/-- Claim C9 (amended): on every image-bearing success of generate_image, edit_image
or compose_images, the inline image item carries the base64 payload of the first
truthy inline-image part of the first candidate, while the file at the saved_to path
holds the decoded bytes of the last such part; when the first and last payloads
decode to different bytes the returned and saved images differ, and with exactly one
image part they coincide. -/
theorem image_tools_first_inline_last_saved (env : Env) (resp : GeminiResponse)
    (c : GeminiCandidate) (cs : List GeminiCandidate) (firstP lastP : GeminiPart)
    (hcand : resp.candidates = some (c :: cs))
    (hfirst : (imageParts c.content.parts).head? = some firstP)
    (hlast : (imageParts c.content.parts).getLast? = some lastP) :
    (∀ args : GenerateImageArgs,
      generateContentWith env.fetchResult (generateOptions args) = .ok resp →
      inlineSavedSpec (generateImageHandler env args) (imageParts c.content.parts) firstP lastP) ∧
    (∀ (args : EditImageArgs) (bytes : List Nat),
      env.readFile args.image_path = .ok bytes →
      generateContentWith env.fetchResult
        (editOptions args (readImageAsBase64 args.image_path bytes)) = .ok resp →
      inlineSavedSpec (editImageHandler env args) (imageParts c.content.parts) firstP lastP) ∧
    (∀ (args : ComposeArgs) (parts : List GeminiPart),
      composeParts env args.image_paths = .ok parts →
      generateContentWith env.fetchResult (composeOptions args parts) = .ok resp →
      inlineSavedSpec (composeImagesHandler env args) (imageParts c.content.parts) firstP lastP) := by
  refine ⟨?_, ?_, ?_⟩
  · intro args hgc
    have hbody := generateImageBody_ok env args resp c cs firstP hgc hcand hfirst
    refine inlineSavedSpec_of_eq env.clock args.output_dir
      (MetaData.gen
        { saved_to := savePath args.output_dir (env.clock ((imageParts c.content.parts).length - 1)),
          model := args.model,
          aspect_ratio := args.aspect_ratio,
          image_size := args.image_size,
          description := if truthyTexts c.content.parts = [] then none
                         else some (String.intercalate "\n" (truthyTexts c.content.parts)) })
      _ firstP lastP _ ?_ rfl hfirst hlast
    unfold generateImageHandler
    rw [hbody]
  · intro args bytes hread hgc
    have hbody := editImageBody_ok env args bytes resp c cs firstP hread hgc hcand hfirst
    refine inlineSavedSpec_of_eq env.clock args.output_dir
      (MetaData.edit
        { saved_to := savePath args.output_dir (env.clock ((imageParts c.content.parts).length - 1)),
          source := args.image_path,
          instruction := args.instruction,
          model := args.model,
          description := if truthyTexts c.content.parts = [] then none
                         else some (String.intercalate "\n" (truthyTexts c.content.parts)) })
      _ firstP lastP _ ?_ rfl hfirst hlast
    unfold editImageHandler
    rw [hbody]
  · intro args parts hparts hgc
    have hbody := composeImagesBody_ok env args parts resp c cs firstP hparts hgc hcand hfirst
    refine inlineSavedSpec_of_eq env.clock args.output_dir
      (MetaData.compose
        { saved_to := savePath args.output_dir (env.clock ((imageParts c.content.parts).length - 1)),
          sources := args.image_paths,
          instruction := args.instruction,
          model := args.model,
          description := if truthyTexts c.content.parts = [] then none
                         else some (String.intercalate "\n" (truthyTexts c.content.parts)) })
      _ firstP lastP _ ?_ rfl hfirst hlast
    unfold composeImagesHandler
    rw [hbody]

/-- Witness for the amended C9: with two image parts QUJD then WFla, each of
generate_image, edit_image and compose_images returns QUJD inline while its saved
file holds the decoded WFla; for generate the two are shown to differ. -/
theorem image_tools_first_inline_last_saved_witness :
    (envelopeInlineData (generateImageHandler envC9W argsGen).1 = some "QUJD" ∧
     fsRead (generateImageHandler envC9W argsGen).2 "out/nano-banana-1.png" =
       some (decodeBase64 "WFla") ∧
     (envelopeInlineData (generateImageHandler envC9W argsGen).1).map decodeBase64 ≠
       fsRead (generateImageHandler envC9W argsGen).2 "out/nano-banana-1.png") ∧
    (envelopeInlineData (editImageHandler envC9W argsEdit).1 = some "QUJD" ∧
     fsRead (editImageHandler envC9W argsEdit).2 "out/nano-banana-1.png" =
       some (decodeBase64 "WFla")) ∧
    (envelopeInlineData (composeImagesHandler envC9W argsCompose).1 = some "QUJD" ∧
     fsRead (composeImagesHandler envC9W argsCompose).2 "out/nano-banana-1.png" =
       some (decodeBase64 "WFla")) := by
  have h := image_tools_first_inline_last_saved envC9W respC9W candC9W []
    (partImg "QUJD") (partImg "WFla") rfl (by decide) (by decide)
  refine ⟨?_, ?_, ?_⟩
  · obtain ⟨h1, sp, hsp, hread, hdiff, _⟩ := h.1 argsGen rfl
    have hspv : sp = "out/nano-banana-1.png" := by
      have hcomp : envelopeSavedTo (generateImageHandler envC9W argsGen).1 =
          some "out/nano-banana-1.png" := by decide
      rw [hsp] at hcomp
      exact Option.some.inj hcomp
    rw [hspv] at hread hdiff
    exact ⟨h1, hread, hdiff (by decide)⟩
  · obtain ⟨h1, sp, hsp, hread, _, _⟩ := h.2.1 argsEdit [] rfl rfl
    have hspv : sp = "out/nano-banana-1.png" := by
      have hcomp : envelopeSavedTo (editImageHandler envC9W argsEdit).1 =
          some "out/nano-banana-1.png" := by decide
      rw [hsp] at hcomp
      exact Option.some.inj hcomp
    rw [hspv] at hread
    exact ⟨h1, hread⟩
  · obtain ⟨h1, sp, hsp, hread, _, _⟩ := h.2.2 argsCompose
      [{ inlineData := some { mimeType := "image/png", data := encodeBase64 [] } }] rfl rfl
    have hspv : sp = "out/nano-banana-1.png" := by
      have hcomp : envelopeSavedTo (composeImagesHandler envC9W argsCompose).1 =
          some "out/nano-banana-1.png" := by decide
      rw [hsp] at hcomp
      exact Option.some.inj hcomp
    rw [hspv] at hread
    exact ⟨h1, hread⟩

-- --- Claim C10 ---

/-- Claim C10: a describe_image call whose response has at least one candidate
returns a success envelope even when no part of the first candidate has a text
field: the description field of the returned JSON metadata is the empty string, not
an error envelope. -/
theorem describe_no_text_success (env : Env) (args : DescribeArgs) (bytes : List Nat)
    (resp : GeminiResponse) (c : GeminiCandidate) (cs : List GeminiCandidate)
    (hread : env.readFile args.image_path = .ok bytes)
    (hgc : generateContentWith env.fetchResult
      (describeOptions args (readImageAsBase64 args.image_path bytes)) = .ok resp)
    (hcand : resp.candidates = some (c :: cs))
    (hnotext : ∀ p ∈ c.content.parts, p.text = none) :
    describeImageHandler env args = toolResult (MetaData.describe
      { image_path := args.image_path, description := "", model := args.model }) := by
  have hfilter : c.content.parts.filter (fun p => strTruthy p.text) = [] := by
    apply List.filter_eq_nil_iff.mpr
    intro p hp
    rw [hnotext p hp]
    simp [strTruthy]
  have hri : readImageM env args.image_path = .ok (readImageAsBase64 args.image_path bytes) := by
    unfold readImageM
    rw [hread]
  have hbody : describeImageBody env args = .ok (toolResult (MetaData.describe
      { image_path := args.image_path, description := "", model := args.model })) := by
    unfold describeImageBody
    rw [hri]
    simp only [describeAfterRead]
    rw [hgc]
    simp only [describeAfterCall]
    rw [hcand]
    simp only [describeFromCandidates, hfilter]
    rfl
  unfold describeImageHandler
  rw [hbody]

/-- Witness for C10: a response whose single candidate has one part with neither
text nor image yields a success envelope with an empty description. -/
theorem describe_no_text_success_witness :
    describeImageHandler envC10 argsDescribe = toolResult (MetaData.describe
      { image_path := "a.png", description := "", model := ModelChoice.flash }) := by
  exact describe_no_text_success envC10 argsDescribe [9] respC10 candC10 [] rfl rfl rfl
    (by decide)
